import Mathlib

/-!
Verification of the audiodumper CLI (`audiodumper/cli.py`).

The program is embedded shallowly: `main` is a pure function from the job
parameters (input path, optional output path, optional transposition, force
flag) and an environment oracle `Env` (results of filesystem existence
queries, the user's answer to the confirmation prompt, availability of the
optional pitch-shift dependencies, and the results of the external
transcode / load / shift / write steps) to a trace of observable events
(`Event`) together with a process outcome (`Outcome`).
-/

namespace Audiodumper

/-- `os.path.basename` on a character list: the characters after the last
path separator. -/
def basenameList (l : List Char) : List Char :=
  (l.reverse.takeWhile (fun c => c != '/')).reverse

/-- The root part of `os.path.splitext` on a separator-free character list:
split at the last dot, unless every character before that dot is itself a
dot (so that a leading-dot name such as `.bashrc` keeps its dot). -/
def splitextRoot (l : List Char) : List Char :=
  match l.reverse.dropWhile (fun c => c != '.') with
  | [] => l
  | _ :: beforeDot => if beforeDot.any (fun c => c != '.') then beforeDot.reverse else l

/-- `_default_output_path` from `cli.py`: basename of the input, extension
stripped, with `.wav` appended. -/
def default_output_path (input : String) : String :=
  String.mk (splitextRoot (basenameList input.data) ++ ".wav".data)

/-- `output or _default_output_path(filepath)`: Python `or` falls through to
the default both when `--output` is absent and when it is the empty string. -/
def resolve_out_path (output : Option String) (filepath : String) : String :=
  match output with
  | some s => if s = "" then default_output_path filepath else s
  | none => default_output_path filepath

/-- Result of an `ffmpeg.run` call: success, or `ffmpeg.Error` carrying the
captured stderr text. -/
inductive FfmpegResult where
  | ok
  | err (stderr : String)
deriving DecidableEq

/-- Result of one of the other external steps (`librosa.load`,
`librosa.effects.pitch_shift`, `sf.write`): success, or an exception with a
message. -/
inductive StepResult where
  | ok
  | exc (msg : String)
deriving DecidableEq

/-- Environment oracle: everything `main` observes from the outside world,
in the order it would observe it. -/
structure Env where
  /-- `os.path.exists(out_path)` at the overwrite guard. -/
  outExistsAtGuard : Bool
  /-- The user's answer to `click.confirm` (False when declined or
  non-interactive). -/
  confirmAnswer : Bool
  /-- Whether `import librosa` / `import soundfile` succeed. -/
  importOk : Bool
  /-- The name handed out by `tempfile.NamedTemporaryFile`. -/
  tmpName : String
  /-- Result of the single `ffmpeg.run` call the invocation performs. -/
  ffmpegRunResult : FfmpegResult
  /-- Result of `librosa.load`. -/
  loadResult : StepResult
  /-- Result of `librosa.effects.pitch_shift`. -/
  shiftResult : StepResult
  /-- `os.path.exists(out_path)` just before the final `sf.write`. -/
  outExistsBeforeWrite : Bool
  /-- Result of `sf.write`. -/
  writeResult : StepResult
deriving DecidableEq

/-- Observable events of one invocation. -/
inductive Event where
  /-- `click.confirm` prompt shown to the user. -/
  | prompt (msg : String)
  /-- `click.echo` output line. -/
  | echo (msg : String)
  /-- The `import librosa` / `import soundfile` availability test. -/
  | depCheck
  /-- `tempfile.NamedTemporaryFile(suffix=.wav, delete=False)` creating a file. -/
  | tmpCreate (path : String)
  /-- An `ffmpeg.run` transcode from `src` to `dst`; `allowOverwrite` records
  whether `ffmpeg.overwrite_output` was applied. -/
  | ffmpegRun (src dst : String) (allowOverwrite : Bool)
  /-- `librosa.load(path, sr=None, mono=True)`. -/
  | loadMono (path : String)
  /-- `librosa.effects.pitch_shift` by `semitones`. -/
  | pitchShift (semitones : Int)
  /-- `os.remove(path)`. -/
  | removeFile (path : String)
  /-- `sf.write(path, ..., subtype=PCM_16)`. -/
  | sfWrite (path : String)
deriving DecidableEq

/-- Process outcome: normal return, `click.Abort`, or `click.ClickException`
with its message. -/
inductive Outcome where
  | success
  | abort
  | error (msg : String)
deriving DecidableEq

/-- Exit code of the process: click maps both `Abort` and `ClickException`
to exit code 1. -/
def Outcome.exitCode : Outcome → Nat
  | .success => 0
  | .abort => 1
  | .error _ => 1

/-- The confirmation prompt text. -/
def promptMsg (out : String) : String :=
  "Output file \x27" ++ out ++ "\x27 already exists. Overwrite?"

/-- The echo printed when the user declines the overwrite. -/
def abortEcho : String := "Aborted: output file exists and overwrite not confirmed."

/-- The `ClickException` message when the optional transpose dependencies are
missing. -/
def missingDepsMsg : String :=
  "Missing optional dependencies for transpose: install \x27librosa\x27 and \x27soundfile\x27 (e.g. uv install . or pip install librosa soundfile)"

/-- The `ClickException` message wrapping an `ffmpeg.Error`. -/
def ffmpegErrMsg (stderr : String) : String := "ffmpeg error: " ++ stderr

/-- The `ClickException` message wrapping any other exception. -/
def failedMsg (m : String) : String := "Failed processing file: " ++ m

/-- Python `f-string` `{n:+d}`: always an explicit sign. -/
def fmtSigned (n : Int) : String := if 0 ≤ n then "+" ++ toString n else toString n

/-- The success line: `Wrote: <out>` with the transpose suffix exactly when a
transposition was requested. -/
def wroteMsg (out : String) : Option Int → String
  | some n => "Wrote: " ++ out ++ " (transpose: " ++ fmtSigned n ++ " semitones)"
  | none => "Wrote: " ++ out

/-- The direct transcode path: one `ffmpeg.run` straight to the output path,
with `overwrite_output` applied exactly when `overwrite` was established. -/
def directTranscode (filepath out_path : String) (overwrite : Bool) (env : Env) :
    List Event × Outcome :=
  match env.ffmpegRunResult with
  | .err s =>
      ([Event.ffmpegRun filepath out_path overwrite], Outcome.error (ffmpegErrMsg s))
  | .ok =>
      ([Event.ffmpegRun filepath out_path overwrite, Event.echo (wroteMsg out_path none)],
       Outcome.success)

/-- The transpose path: dependency check, temp file, transcode to temp
(always with `overwrite_output`), mono load, pitch shift, best-effort
pre-write removal when `overwrite` holds and the output exists, `sf.write`,
and a `finally` block removing the temp file on every exit. -/
def transposeRun (filepath out_path : String) (n : Int) (overwrite : Bool) (env : Env) :
    List Event × Outcome :=
  if env.importOk then
    match env.ffmpegRunResult with
    | .err s =>
        ([Event.depCheck, Event.tmpCreate env.tmpName,
          Event.ffmpegRun filepath env.tmpName true, Event.removeFile env.tmpName],
         Outcome.error (ffmpegErrMsg s))
    | .ok =>
      match env.loadResult with
      | .exc m =>
          ([Event.depCheck, Event.tmpCreate env.tmpName,
            Event.ffmpegRun filepath env.tmpName true, Event.loadMono env.tmpName,
            Event.removeFile env.tmpName],
           Outcome.error (failedMsg m))
      | .ok =>
        match env.shiftResult with
        | .exc m =>
            ([Event.depCheck, Event.tmpCreate env.tmpName,
              Event.ffmpegRun filepath env.tmpName true, Event.loadMono env.tmpName,
              Event.pitchShift n, Event.removeFile env.tmpName],
             Outcome.error (failedMsg m))
        | .ok =>
          match env.writeResult with
          | .exc m =>
              ([Event.depCheck, Event.tmpCreate env.tmpName,
                Event.ffmpegRun filepath env.tmpName true, Event.loadMono env.tmpName,
                Event.pitchShift n] ++
               (if overwrite && env.outExistsBeforeWrite then [Event.removeFile out_path] else []) ++
               [Event.sfWrite out_path, Event.removeFile env.tmpName],
               Outcome.error (failedMsg m))
          | .ok =>
              ([Event.depCheck, Event.tmpCreate env.tmpName,
                Event.ffmpegRun filepath env.tmpName true, Event.loadMono env.tmpName,
                Event.pitchShift n] ++
               (if overwrite && env.outExistsBeforeWrite then [Event.removeFile out_path] else []) ++
               [Event.sfWrite out_path, Event.removeFile env.tmpName,
                Event.echo (wroteMsg out_path (some n))],
               Outcome.success)
  else
    ([Event.depCheck], Outcome.error missingDepsMsg)

/-- The branch on `semitones is None`. -/
def runPipeline (filepath out_path : String) (transpose : Option Int) (overwrite : Bool)
    (env : Env) : List Event × Outcome :=
  match transpose with
  | none => directTranscode filepath out_path overwrite env
  | some n => transposeRun filepath out_path n overwrite env

/-- Prepend the confirmation prompt to a run's trace. -/
def withPrompt (out : String) (r : List Event × Outcome) : List Event × Outcome :=
  (Event.prompt (promptMsg out) :: r.1, r.2)

/-- `main` from `cli.py`: resolve the output path, run the overwrite guard,
then the selected pipeline. -/
def main (filepath : String) (output : Option String) (transpose : Option Int)
    (yes : Bool) (env : Env) : List Event × Outcome :=
  if env.outExistsAtGuard && !yes then
    if env.confirmAnswer then
      withPrompt (resolve_out_path output filepath)
        (runPipeline filepath (resolve_out_path output filepath) transpose true env)
    else
      ([Event.prompt (promptMsg (resolve_out_path output filepath)),
        Event.echo abortEcho], Outcome.abort)
  else
    runPipeline filepath (resolve_out_path output filepath) transpose yes env

/-- Events that create, replace or remove a file, or invoke the external
transcoder. -/
def Event.isFileOp : Event → Bool
  | .prompt _ => false
  | .echo _ => false
  | .depCheck => false
  | _ => true

/-- Whether an event is an `ffmpeg.run` invocation. -/
def Event.isFfmpegRun : Event → Bool
  | .ffmpegRun .. => true
  | _ => false

/-- One step of the file-existence semantics of a trace, for a fixed path
`t`: creations and writes at `t` make it exist, removal of `t` makes it not
exist, everything else leaves it unchanged. -/
def applyEvent (t : String) (b : Bool) : Event → Bool
  | .tmpCreate p => if p = t then true else b
  | .ffmpegRun _ p _ => if p = t then true else b
  | .sfWrite p => if p = t then true else b
  | .removeFile p => if p = t then false else b
  | _ => b

/-- Whether a file at path `t`, absent at the start, exists after the trace. -/
def existsAfter (t : String) (tr : List Event) : Bool :=
  tr.foldl (applyEvent t) false

/-- The lines printed with `click.echo` during a trace. -/
def echoes (tr : List Event) : List String :=
  tr.filterMap fun e =>
    match e with
    | .echo m => some m
    | _ => none

example : default_output_path "/a/b/song.mp3" = "song.wav" := by decide
example : default_output_path ".bashrc" = ".bashrc.wav" := by decide
example : default_output_path "x/y/archive.tar.gz" = "archive.tar.wav" := by decide
example : fmtSigned 3 = "+3" ∧ fmtSigned 0 = "+0" ∧ fmtSigned (-2) = "-2" := by decide

lemma takeWhile_append_sentinel (p : Char → Bool) (l₁ : List Char) (x : Char) (l₂ : List Char)
    (h₁ : ∀ c ∈ l₁, p c = true) (hx : p x = false) :
    (l₁ ++ x :: l₂).takeWhile p = l₁ := by
  induction l₁ with
  | nil => simp [List.takeWhile_cons, hx]
  | cons a t ih =>
    have ha : p a = true := h₁ a (by simp)
    have ht : ∀ c ∈ t, p c = true := fun c hc => h₁ c (by simp [hc])
    simp [List.takeWhile_cons, ha, ih ht]

lemma dropWhile_append_sentinel (p : Char → Bool) (l₁ : List Char) (x : Char) (l₂ : List Char)
    (h₁ : ∀ c ∈ l₁, p c = true) (hx : p x = false) :
    (l₁ ++ x :: l₂).dropWhile p = x :: l₂ := by
  induction l₁ with
  | nil => simp [List.dropWhile_cons, hx]
  | cons a t ih =>
    have ha : p a = true := h₁ a (by simp)
    have ht : ∀ c ∈ t, p c = true := fun c hc => h₁ c (by simp [hc])
    simp [List.dropWhile_cons, ha, ih ht]

lemma basenameList_append (d s : List Char) (hs : ∀ c ∈ s, c ≠ '/') :
    basenameList (d ++ '/' :: s) = s := by
  unfold basenameList
  have : (d ++ '/' :: s).reverse = s.reverse ++ '/' :: d.reverse := by
    simp [List.reverse_append]
  rw [this, takeWhile_append_sentinel _ _ _ _ ?_ (by simp), List.reverse_reverse]
  intro c hc
  simpa using hs c (List.mem_reverse.mp hc)

lemma splitextRoot_append (b e : List Char) (hb : b ≠ [])
    (hbd : ∀ c ∈ b, c ≠ '.') (hed : ∀ c ∈ e, c ≠ '.') :
    splitextRoot (b ++ '.' :: e) = b := by
  unfold splitextRoot
  have hrev : (b ++ '.' :: e).reverse = e.reverse ++ '.' :: b.reverse := by
    simp [List.reverse_append]
  rw [hrev, dropWhile_append_sentinel _ _ _ _ ?_ (by simp)]
  · have hany : b.reverse.any (fun c => c != '.') = true := by
      obtain ⟨a, t, rfl⟩ := List.exists_cons_of_ne_nil hb
      refine List.any_eq_true.mpr ⟨a, by simp, by simpa using hbd a (by simp)⟩
    simp [hany]
  · intro c hc
    simpa using hed c (List.mem_reverse.mp hc)

lemma string_data_append (a b : String) : (a ++ b).data = a.data ++ b.data := rfl

/-- C5: when no output option is given, the default output path is the
input's filename with directory and extension stripped and `.wav` appended:
for any directory prefix `d`, any nonempty dot-free slash-free stem `b` and
any dot-free slash-free extension `e`, input `d/b.e` yields `b.wav`; in
particular `/a/b/song.mp3` yields `song.wav`. -/
theorem default_output_basename_wav :
    (∀ d b e : String, b.data ≠ [] →
        (∀ c ∈ b.data, c ≠ '/' ∧ c ≠ '.') →
        (∀ c ∈ e.data, c ≠ '/' ∧ c ≠ '.') →
        default_output_path (d ++ "/" ++ b ++ "." ++ e) = b ++ ".wav")
    ∧ default_output_path "/a/b/song.mp3" = "song.wav" := by
  constructor
  · intro d b e hb hbc hec
    have hdata : (d ++ "/" ++ b ++ "." ++ e).data
        = d.data ++ '/' :: (b.data ++ '.' :: e.data) := by
      simp [string_data_append]
    have hslash : ∀ c ∈ b.data ++ '.' :: e.data, c ≠ '/' := by
      intro c hc
      rcases List.mem_append.mp hc with h | h
      · exact (hbc c h).1
      · rcases List.mem_cons.mp h with rfl | h
        · decide
        · exact (hec c h).1
    have hbase : basenameList (d ++ "/" ++ b ++ "." ++ e).data = b.data ++ '.' :: e.data := by
      rw [hdata]
      exact basenameList_append _ _ hslash
    have hroot : splitextRoot (basenameList (d ++ "/" ++ b ++ "." ++ e).data) = b.data := by
      rw [hbase]
      exact splitextRoot_append _ _ hb (fun c hc => (hbc c hc).2) (fun c hc => (hec c hc).2)
    show String.mk _ = _
    rw [hroot]
    rfl
  · decide

/-- Witness for C5 at the spec's own example. -/
theorem default_output_basename_wav_witness :
    default_output_path ("/a/b" ++ "/" ++ "song" ++ "." ++ "mp3") = "song" ++ ".wav" :=
  default_output_basename_wav.1 "/a/b" "song" "mp3" (by decide) (by decide) (by decide)

/-- C1: when the resolved output path exists, the force flag is unset and
the user declines the confirmation, the whole run is the prompt and the
abort echo: no file is created or modified (no file-operation event), the
outcome is the aborted one, and the exit code is non-zero. -/
theorem declined_overwrite_aborts_cleanly (filepath : String) (output : Option String)
    (transpose : Option Int) (env : Env)
    (hex : env.outExistsAtGuard = true) (hconf : env.confirmAnswer = false) :
    main filepath output transpose false env
      = ([Event.prompt (promptMsg (resolve_out_path output filepath)),
          Event.echo abortEcho], Outcome.abort)
    ∧ (main filepath output transpose false env).2.exitCode ≠ 0
    ∧ (main filepath output transpose false env).1.all (fun e => !e.isFileOp) = true := by
  have h : main filepath output transpose false env
      = ([Event.prompt (promptMsg (resolve_out_path output filepath)),
          Event.echo abortEcho], Outcome.abort) := by
    simp [main, hex, hconf]
  refine ⟨h, ?_, ?_⟩ <;> rw [h] <;> simp [Outcome.exitCode, Event.isFileOp]

/-- Witness for C1 at a concrete input. -/
theorem declined_overwrite_aborts_cleanly_witness :
    main "song.mp3" none none false
        { outExistsAtGuard := true, confirmAnswer := false, importOk := true,
          tmpName := "tmp1.wav", ffmpegRunResult := .ok, loadResult := .ok,
          shiftResult := .ok, outExistsBeforeWrite := false, writeResult := .ok }
      = ([Event.prompt (promptMsg (resolve_out_path none "song.mp3")),
          Event.echo abortEcho], Outcome.abort)
    ∧ (main "song.mp3" none none false
        { outExistsAtGuard := true, confirmAnswer := false, importOk := true,
          tmpName := "tmp1.wav", ffmpegRunResult := .ok, loadResult := .ok,
          shiftResult := .ok, outExistsBeforeWrite := false, writeResult := .ok }).2.exitCode ≠ 0
    ∧ (main "song.mp3" none none false
        { outExistsAtGuard := true, confirmAnswer := false, importOk := true,
          tmpName := "tmp1.wav", ffmpegRunResult := .ok, loadResult := .ok,
          shiftResult := .ok, outExistsBeforeWrite := false, writeResult := .ok }).1.all
        (fun e => !e.isFileOp) = true :=
  declined_overwrite_aborts_cleanly "song.mp3" none none _ rfl rfl

/-- C2 counterexample: transposition is requested and the pitch-shift
capability is unavailable, but because the output path exists, the force
flag is unset and the user declines, the run ends in the aborted outcome
rather than failing with the Missing-Capability error. -/
theorem missing_deps_abort_first_cex :
    (main "in.mp4" none (some 3) false
        { outExistsAtGuard := true, confirmAnswer := false, importOk := false,
          tmpName := "tmp1.wav", ffmpegRunResult := .ok, loadResult := .ok,
          shiftResult := .ok, outExistsBeforeWrite := false, writeResult := .ok }).2
      = Outcome.abort
    ∧ (main "in.mp4" none (some 3) false
        { outExistsAtGuard := true, confirmAnswer := false, importOk := false,
          tmpName := "tmp1.wav", ffmpegRunResult := .ok, loadResult := .ok,
          shiftResult := .ok, outExistsBeforeWrite := false, writeResult := .ok }).2
      ≠ Outcome.error missingDepsMsg := by
  refine ⟨rfl, ?_⟩
  simp [main]

/-- C2 (amended): for every invocation where transposition is requested, the
pitch-shift capability is unavailable, and the overwrite guard does not
abort the run, the program fails with the Missing-Capability error before
any file I/O: the trace holds no file operation (no transcode, no temporary
or output file) and the exit code is non-zero. -/
theorem missing_deps_error_before_io (filepath : String) (output : Option String)
    (n : Int) (yes : Bool) (env : Env) (hio : env.importOk = false)
    (hguard : env.outExistsAtGuard = false ∨ yes = true ∨ env.confirmAnswer = true) :
    (main filepath output (some n) yes env).2 = Outcome.error missingDepsMsg
    ∧ (main filepath output (some n) yes env).2.exitCode ≠ 0
    ∧ (main filepath output (some n) yes env).1.all (fun e => !e.isFileOp) = true := by
  cases hg : env.outExistsAtGuard <;> cases yes <;> cases hc : env.confirmAnswer <;>
    simp [hg, hc] at hguard ⊢ <;>
    simp [main, hg, hc, runPipeline, transposeRun, hio, withPrompt,
      Outcome.exitCode, Event.isFileOp]

/-- Witness for C2's amended theorem at a concrete input. -/
theorem missing_deps_error_before_io_witness :
    (main "in.mp4" none (some (-2)) true
        { outExistsAtGuard := false, confirmAnswer := false, importOk := false,
          tmpName := "tmp1.wav", ffmpegRunResult := .ok, loadResult := .ok,
          shiftResult := .ok, outExistsBeforeWrite := false, writeResult := .ok }).2
      = Outcome.error missingDepsMsg
    ∧ (main "in.mp4" none (some (-2)) true
        { outExistsAtGuard := false, confirmAnswer := false, importOk := false,
          tmpName := "tmp1.wav", ffmpegRunResult := .ok, loadResult := .ok,
          shiftResult := .ok, outExistsBeforeWrite := false, writeResult := .ok }).2.exitCode ≠ 0
    ∧ (main "in.mp4" none (some (-2)) true
        { outExistsAtGuard := false, confirmAnswer := false, importOk := false,
          tmpName := "tmp1.wav", ffmpegRunResult := .ok, loadResult := .ok,
          shiftResult := .ok, outExistsBeforeWrite := false, writeResult := .ok }).1.all
        (fun e => !e.isFileOp) = true :=
  missing_deps_error_before_io "in.mp4" none (-2) true _ rfl (Or.inl rfl)

lemma existsAfter_prompt (t m : String) (tr : List Event) :
    existsAfter t (Event.prompt m :: tr) = existsAfter t tr := rfl

lemma existsAfter_transposeRun (filepath out_path : String) (n : Int) (ov : Bool) (env : Env) :
    existsAfter env.tmpName (transposeRun filepath out_path n ov env).1 = false := by
  rcases env with ⟨og, ca, io, tn, fr, lr, sr, oe, wr⟩
  cases io <;> cases fr <;> cases lr <;> cases sr <;> cases wr <;>
    cases hov : ov && oe <;>
    simp [transposeRun, existsAfter, applyEvent, hov, List.foldl_append]

/-- C3: after any transpose-requested run — whatever the guard, the
dependency check, or any external step did — the temporary file name handed
out by the environment does not exist at the end of the trace (in
particular, every run that created it also removed it). -/
theorem temp_file_gone_after_transpose (filepath : String) (output : Option String)
    (n : Int) (yes : Bool) (env : Env) :
    existsAfter env.tmpName (main filepath output (some n) yes env).1 = false := by
  cases hg : env.outExistsAtGuard <;> cases yes <;> cases hc : env.confirmAnswer <;>
    ((simp [main, hg, hc, runPipeline, withPrompt, existsAfter_prompt,
      existsAfter_transposeRun]); try rfl)

/-- C4 counterexample: output path absent at guard time and force flag
unset (overwrite confirmation "not needed"), yet the direct transcode is
invoked WITHOUT permission to replace an existing file at the output path:
the trace holds the run with the overwrite flag false, and no run with the
flag true. -/
theorem direct_no_overwrite_flag_cex :
    (main "song.mp3" none none false
        { outExistsAtGuard := false, confirmAnswer := false, importOk := true,
          tmpName := "tmp1.wav", ffmpegRunResult := .ok, loadResult := .ok,
          shiftResult := .ok, outExistsBeforeWrite := false, writeResult := .ok }).1
      = [Event.ffmpegRun "song.mp3" "song.wav" false,
         Event.echo (wroteMsg "song.wav" none)]
    ∧ Event.ffmpegRun "song.mp3" "song.wav" true
        ∉ (main "song.mp3" none none false
            { outExistsAtGuard := false, confirmAnswer := false, importOk := true,
              tmpName := "tmp1.wav", ffmpegRunResult := .ok, loadResult := .ok,
              shiftResult := .ok, outExistsBeforeWrite := false,
              writeResult := .ok }).1 := by
  refine ⟨by decide, by decide⟩

/-- C4 (amended): in the direct transcode path, every transcode invocation
targets the resolved output path and carries the replace-existing-file
permission exactly when the force flag was set or the user confirmed the
overwrite; when the output path did not exist at guard time and neither
held, it runs without that permission, so a file racing into the path makes
it fail rather than silently overwrite; and every non-aborted run performs
exactly such an invocation. -/
theorem direct_overwrite_flag_iff_confirmed (filepath : String) (output : Option String)
    (yes : Bool) (env : Env) :
    (∀ src d a, Event.ffmpegRun src d a ∈ (main filepath output none yes env).1 →
        src = filepath ∧ d = resolve_out_path output filepath
        ∧ a = (yes || (env.outExistsAtGuard && env.confirmAnswer)))
    ∧ ((main filepath output none yes env).2 ≠ Outcome.abort →
        Event.ffmpegRun filepath (resolve_out_path output filepath)
          (yes || (env.outExistsAtGuard && env.confirmAnswer))
          ∈ (main filepath output none yes env).1) := by
  rcases env with ⟨og, ca, io, tn, fr, lr, sr, oe, wr⟩
  cases og <;> cases ca <;> cases yes <;> cases fr <;>
    simp [main, runPipeline, directTranscode, withPrompt]

/-- Witness for C4's amended theorem: forced flag set, so the run carries
the permission. -/
theorem direct_overwrite_flag_iff_confirmed_witness :
    Event.ffmpegRun "song.mp3" (resolve_out_path none "song.mp3") true
      ∈ (main "song.mp3" none none true
          { outExistsAtGuard := true, confirmAnswer := false, importOk := true,
            tmpName := "tmp1.wav", ffmpegRunResult := .ok, loadResult := .ok,
            shiftResult := .ok, outExistsBeforeWrite := false,
            writeResult := .ok }).1 :=
  (direct_overwrite_flag_iff_confirmed "song.mp3" none true _).2 (by decide)

lemma tmpCreate_mem_transposeRun (filepath out_path : String) (n : Int) (ov : Bool)
    (env : Env) (hio : env.importOk = true) :
    Event.tmpCreate env.tmpName ∈ (transposeRun filepath out_path n ov env).1 := by
  rcases env with ⟨og, ca, io, tn, fr, lr, sr, oe, wr⟩
  cases fr <;> cases lr <;> cases sr <;> cases wr <;>
    simp_all [transposeRun]

lemma pitchShift_mem_transposeRun (filepath out_path : String) (n : Int) (ov : Bool)
    (env : Env) (hio : env.importOk = true) (hf : env.ffmpegRunResult = .ok)
    (hl : env.loadResult = .ok) :
    Event.pitchShift n ∈ (transposeRun filepath out_path n ov env).1 := by
  rcases env with ⟨og, ca, io, tn, fr, lr, sr, oe, wr⟩
  cases sr <;> cases wr <;> simp_all [transposeRun]

lemma tmpCreate_not_mem_direct (filepath out_path : String) (ov : Bool) (env : Env)
    (p : String) : Event.tmpCreate p ∉ (directTranscode filepath out_path ov env).1 := by
  rcases env with ⟨og, ca, io, tn, fr, lr, sr, oe, wr⟩
  cases fr <;> simp [directTranscode]

lemma pitchShift_not_mem_direct (filepath out_path : String) (ov : Bool) (env : Env)
    (m : Int) : Event.pitchShift m ∉ (directTranscode filepath out_path ov env).1 := by
  rcases env with ⟨og, ca, io, tn, fr, lr, sr, oe, wr⟩
  cases fr <;> simp [directTranscode]

/-- C6: the transpose pipeline is selected exactly when the transposition
parameter is present as an integer, including zero: (1) whenever some `n`
is given, the guard does not abort and the dependencies import, the run
creates the temporary file; (2) if additionally the transcode and load
steps succeed, the pitch-shift step runs with exactly `n` semitones — also
for `n = 0`; (3) a run without transposition never creates a temporary
file and never pitch-shifts. -/
theorem transpose_path_iff_transpose_given (filepath : String) (output : Option String)
    (yes : Bool) (env : Env) :
    (∀ n : Int, (env.outExistsAtGuard = false ∨ yes = true ∨ env.confirmAnswer = true) →
        env.importOk = true →
        Event.tmpCreate env.tmpName ∈ (main filepath output (some n) yes env).1)
    ∧ (∀ n : Int, (env.outExistsAtGuard = false ∨ yes = true ∨ env.confirmAnswer = true) →
        env.importOk = true → env.ffmpegRunResult = .ok → env.loadResult = .ok →
        Event.pitchShift n ∈ (main filepath output (some n) yes env).1)
    ∧ (∀ p, Event.tmpCreate p ∉ (main filepath output none yes env).1)
    ∧ (∀ m : Int, Event.pitchShift m ∉ (main filepath output none yes env).1) := by
  refine ⟨?_, ?_, ?_, ?_⟩
  · intro n hguard hio
    cases hg : env.outExistsAtGuard <;> cases yes <;> cases hc : env.confirmAnswer <;>
      simp [hg, hc] at hguard ⊢ <;>
      simp [main, hg, hc, runPipeline, withPrompt,
        tmpCreate_mem_transposeRun filepath (resolve_out_path output filepath) n _ env hio]
  · intro n hguard hio hf hl
    cases hg : env.outExistsAtGuard <;> cases yes <;> cases hc : env.confirmAnswer <;>
      simp [hg, hc] at hguard ⊢ <;>
      simp [main, hg, hc, runPipeline, withPrompt,
        pitchShift_mem_transposeRun filepath (resolve_out_path output filepath) n _ env hio hf hl]
  · intro p
    cases hg : env.outExistsAtGuard <;> cases yes <;> cases hc : env.confirmAnswer <;>
      simp [main, hg, hc, runPipeline, withPrompt, promptMsg, abortEcho,
        tmpCreate_not_mem_direct filepath (resolve_out_path output filepath) _ env p]
  · intro m
    cases hg : env.outExistsAtGuard <;> cases yes <;> cases hc : env.confirmAnswer <;>
      simp [main, hg, hc, runPipeline, withPrompt, promptMsg, abortEcho,
        pitchShift_not_mem_direct filepath (resolve_out_path output filepath) _ env m]

/-- Witness for C6: a zero-semitone transpose still creates the temporary
file and still invokes the pitch-shift step with 0. -/
theorem transpose_path_iff_transpose_given_witness :
    Event.tmpCreate "tmp1.wav"
      ∈ (main "in.mp4" none (some 0) false
          { outExistsAtGuard := false, confirmAnswer := false, importOk := true,
            tmpName := "tmp1.wav", ffmpegRunResult := .ok, loadResult := .ok,
            shiftResult := .ok, outExistsBeforeWrite := false, writeResult := .ok }).1
    ∧ Event.pitchShift 0
      ∈ (main "in.mp4" none (some 0) false
          { outExistsAtGuard := false, confirmAnswer := false, importOk := true,
            tmpName := "tmp1.wav", ffmpegRunResult := .ok, loadResult := .ok,
            shiftResult := .ok, outExistsBeforeWrite := false, writeResult := .ok }).1 :=
  ⟨(transpose_path_iff_transpose_given "in.mp4" none false _).1 0 (Or.inl rfl) rfl,
   (transpose_path_iff_transpose_given "in.mp4" none false _).2.1 0 (Or.inl rfl) rfl rfl rfl⟩

/-- C7: whenever the executed external transcode step fails, the captured
error-stream text is surfaced verbatim — the outcome is the click error
whose message is `ffmpeg error: ` followed by exactly the captured stderr —
the process exits non-zero, and the trace holds exactly one transcode
invocation (no retry). -/
theorem ffmpeg_failure_surfaced_verbatim (filepath : String) (output : Option String)
    (transpose : Option Int) (yes : Bool) (env : Env) (s : String)
    (hs : env.ffmpegRunResult = .err s)
    (src d : String) (a : Bool)
    (hmem : Event.ffmpegRun src d a ∈ (main filepath output transpose yes env).1) :
    (main filepath output transpose yes env).2 = Outcome.error (ffmpegErrMsg s)
    ∧ s.data <:+ (ffmpegErrMsg s).data
    ∧ (main filepath output transpose yes env).2.exitCode ≠ 0
    ∧ ((main filepath output transpose yes env).1.filter Event.isFfmpegRun).length = 1 := by
  rcases env with ⟨og, ca, io, tn, fr, lr, sr, oe, wr⟩
  subst hs
  cases og <;> cases ca <;> cases yes <;> cases transpose <;> cases io <;>
    simp_all [main, runPipeline, directTranscode, transposeRun, withPrompt,
      Outcome.exitCode, Event.isFfmpegRun, List.filter, ffmpegErrMsg,
      string_data_append] <;>
    exact ⟨"ffmpeg error: ".data, rfl⟩

/-- Witness for C7 at a concrete failing direct run. -/
theorem ffmpeg_failure_surfaced_verbatim_witness :
    (main "song.mp3" none none true
        { outExistsAtGuard := false, confirmAnswer := false, importOk := true,
          tmpName := "tmp1.wav", ffmpegRunResult := .err "boom", loadResult := .ok,
          shiftResult := .ok, outExistsBeforeWrite := false, writeResult := .ok }).2
      = Outcome.error (ffmpegErrMsg "boom")
    ∧ "boom".data <:+ (ffmpegErrMsg "boom").data
    ∧ (main "song.mp3" none none true
        { outExistsAtGuard := false, confirmAnswer := false, importOk := true,
          tmpName := "tmp1.wav", ffmpegRunResult := .err "boom", loadResult := .ok,
          shiftResult := .ok, outExistsBeforeWrite := false, writeResult := .ok }).2.exitCode ≠ 0
    ∧ ((main "song.mp3" none none true
        { outExistsAtGuard := false, confirmAnswer := false, importOk := true,
          tmpName := "tmp1.wav", ffmpegRunResult := .err "boom", loadResult := .ok,
          shiftResult := .ok, outExistsBeforeWrite := false,
          writeResult := .ok }).1.filter Event.isFfmpegRun).length = 1 :=
  ffmpeg_failure_surfaced_verbatim "song.mp3" none none true _ "boom" rfl
    "song.mp3" (resolve_out_path none "song.mp3") true (by decide)

lemma direct_success_echoes (filepath out_path : String) (ov : Bool) (env : Env)
    (hs : (directTranscode filepath out_path ov env).2 = Outcome.success) :
    echoes (directTranscode filepath out_path ov env).1 = [wroteMsg out_path none] := by
  rcases env with ⟨og, ca, io, tn, fr, lr, sr, oe, wr⟩
  cases fr <;> simp_all [directTranscode, echoes]

lemma transpose_success_echoes (filepath out_path : String) (n : Int) (ov : Bool) (env : Env)
    (hs : (transposeRun filepath out_path n ov env).2 = Outcome.success) :
    echoes (transposeRun filepath out_path n ov env).1 = [wroteMsg out_path (some n)] := by
  rcases env with ⟨og, ca, io, tn, fr, lr, sr, oe, wr⟩
  cases io <;> cases fr <;> cases lr <;> cases sr <;> cases wr <;>
    cases hov : ov && oe <;>
    simp_all [transposeRun, echoes, hov]

/-- C8: every successful run prints exactly one line, `Wrote: <output-path>`,
suffixed with the transpose note exactly when a transposition was
requested, the semitone count carrying an explicit sign. -/
theorem success_prints_single_wrote_line (filepath : String) (output : Option String)
    (transpose : Option Int) (yes : Bool) (env : Env)
    (hs : (main filepath output transpose yes env).2 = Outcome.success) :
    echoes (main filepath output transpose yes env).1
      = [wroteMsg (resolve_out_path output filepath) transpose] := by
  cases hg : env.outExistsAtGuard <;> cases yes <;> cases hc : env.confirmAnswer <;>
    cases transpose <;>
    simp only [main, hg, hc, Bool.not_true, Bool.not_false, Bool.and_true, Bool.and_false,
      Bool.true_and, Bool.false_and, Bool.and_self, if_true, if_false, runPipeline,
      Bool.false_eq_true, ite_false, ite_true] at hs ⊢ <;>
    first
    | exact direct_success_echoes _ _ _ _ hs
    | exact transpose_success_echoes _ _ _ _ _ hs
    | exact absurd hs (by simp [withPrompt])

/-- Witness for C8: a successful `-t 3` run prints the line with `+3`. -/
theorem success_prints_single_wrote_line_witness :
    echoes (main "input.mp4" none (some 3) false
        { outExistsAtGuard := false, confirmAnswer := false, importOk := true,
          tmpName := "tmp1.wav", ffmpegRunResult := .ok, loadResult := .ok,
          shiftResult := .ok, outExistsBeforeWrite := false, writeResult := .ok }).1
      = [wroteMsg (resolve_out_path none "input.mp4") (some 3)] :=
  success_prints_single_wrote_line "input.mp4" none (some 3) false _ (by decide)

/-- C9: in the transpose path the final write is not guarded: with
overwrite neither forced nor confirmed (the output path was absent at guard
time) and a file appearing at the output path after the confirmation step,
the run still writes to the output path — with no prior removal of it and
no permission check — and succeeds, silently replacing the raced-in file. -/
theorem transpose_write_bypasses_guard (filepath : String) (output : Option String)
    (n : Int) (env : Env)
    (hex : env.outExistsAtGuard = false) (hio : env.importOk = true)
    (hf : env.ffmpegRunResult = .ok) (hl : env.loadResult = .ok)
    (hsh : env.shiftResult = .ok) (hw : env.writeResult = .ok)
    (hrace : env.outExistsBeforeWrite = true)
    (htmp : env.tmpName ≠ resolve_out_path output filepath) :
    Event.sfWrite (resolve_out_path output filepath)
      ∈ (main filepath output (some n) false env).1
    ∧ Event.removeFile (resolve_out_path output filepath)
        ∉ (main filepath output (some n) false env).1
    ∧ (main filepath output (some n) false env).2 = Outcome.success := by
  rcases env with ⟨og, ca, io, tn, fr, lr, sr, oe, wr⟩
  simp only at hex hio hf hl hsh hw hrace htmp
  subst hex hio hf hl hsh hw hrace
  simp [main, runPipeline, transposeRun, htmp, Ne.symm htmp]

/-- Witness for C9 at a concrete input. -/
theorem transpose_write_bypasses_guard_witness :
    Event.sfWrite (resolve_out_path none "song.mp3")
      ∈ (main "song.mp3" none (some 5) false
          { outExistsAtGuard := false, confirmAnswer := false, importOk := true,
            tmpName := "tmp1.wav", ffmpegRunResult := .ok, loadResult := .ok,
            shiftResult := .ok, outExistsBeforeWrite := true, writeResult := .ok }).1
    ∧ Event.removeFile (resolve_out_path none "song.mp3")
        ∉ (main "song.mp3" none (some 5) false
            { outExistsAtGuard := false, confirmAnswer := false, importOk := true,
              tmpName := "tmp1.wav", ffmpegRunResult := .ok, loadResult := .ok,
              shiftResult := .ok, outExistsBeforeWrite := true, writeResult := .ok }).1
    ∧ (main "song.mp3" none (some 5) false
          { outExistsAtGuard := false, confirmAnswer := false, importOk := true,
            tmpName := "tmp1.wav", ffmpegRunResult := .ok, loadResult := .ok,
            shiftResult := .ok, outExistsBeforeWrite := true, writeResult := .ok }).2
      = Outcome.success :=
  transpose_write_bypasses_guard "song.mp3" none 5 _ rfl rfl rfl rfl rfl rfl rfl (by decide)

lemma depCheck_mem_transposeRun (filepath out_path : String) (n : Int) (ov : Bool)
    (env : Env) : Event.depCheck ∈ (transposeRun filepath out_path n ov env).1 := by
  rcases env with ⟨og, ca, io, tn, fr, lr, sr, oe, wr⟩
  cases io <;> cases fr <;> cases lr <;> cases sr <;> cases wr <;>
    cases hov : ov && oe <;>
    simp [transposeRun, hov]

/-- C10: with transposition requested, the output path existing and the
force flag unset, the overwrite guard runs before the capability check: a
declined confirmation ends the run as the two-event abort trace with no
dependency check at all, and a confirmed one puts the prompt strictly
before the dependency check in the trace. -/
theorem prompt_before_dep_check (filepath : String) (output : Option String)
    (n : Int) (env : Env) (hex : env.outExistsAtGuard = true) :
    (env.confirmAnswer = false →
        main filepath output (some n) false env
          = ([Event.prompt (promptMsg (resolve_out_path output filepath)),
              Event.echo abortEcho], Outcome.abort)
        ∧ Event.depCheck ∉ (main filepath output (some n) false env).1)
    ∧ (env.confirmAnswer = true →
        (main filepath output (some n) false env).1
          = Event.prompt (promptMsg (resolve_out_path output filepath))
            :: (transposeRun filepath (resolve_out_path output filepath) n true env).1
        ∧ Event.depCheck
            ∈ (transposeRun filepath (resolve_out_path output filepath) n true env).1) := by
  constructor
  · intro hc
    have h : main filepath output (some n) false env
        = ([Event.prompt (promptMsg (resolve_out_path output filepath)),
            Event.echo abortEcho], Outcome.abort) := by
      simp [main, hex, hc]
    refine ⟨h, ?_⟩
    rw [h]
    simp
  · intro hc
    refine ⟨?_, depCheck_mem_transposeRun _ _ _ _ _⟩
    simp [main, hex, hc, runPipeline, withPrompt]

/-- Witness for C10: a declined confirmation aborts with no dependency
check. -/
theorem prompt_before_dep_check_witness :
    main "in.mp4" none (some 3) false
        { outExistsAtGuard := true, confirmAnswer := false, importOk := false,
          tmpName := "tmp1.wav", ffmpegRunResult := .ok, loadResult := .ok,
          shiftResult := .ok, outExistsBeforeWrite := false, writeResult := .ok }
      = ([Event.prompt (promptMsg (resolve_out_path none "in.mp4")),
          Event.echo abortEcho], Outcome.abort)
    ∧ Event.depCheck
        ∉ (main "in.mp4" none (some 3) false
            { outExistsAtGuard := true, confirmAnswer := false, importOk := false,
              tmpName := "tmp1.wav", ffmpegRunResult := .ok, loadResult := .ok,
              shiftResult := .ok, outExistsBeforeWrite := false,
              writeResult := .ok }).1 :=
  (prompt_before_dep_check "in.mp4" none 3 _ rfl).1 rfl

end Audiodumper
